import Mathlib

/-!
Verification development for the bazaar-buddy-client worker framework and
capture protocol.  The Python sources are shallowly embedded: each method
becomes a pure Lean function over an explicit state record, exceptions
become an explicit outcome type, and the behaviour of the native platform
layer (callbacks, thread joins, process probes) is supplied as an explicit
environment argument.  Definitions come first, theorems afterwards.
-/

/-- Substring containment on lists of characters, matching the semantics of
the Python expression needle in haystack (True when the needle is empty). -/
def charsContain (needle : List Char) : List Char → Bool
  | [] => needle.isEmpty
  | c :: rest => needle.isPrefixOf (c :: rest) || charsContain needle rest

/-- Substring containment on strings, the Lean rendering of
the Python expression needle in haystack. -/
def containsSubstring (needle hay : String) : Bool :=
  charsContain needle.toList hay.toList

/-- Images are abstract payloads; only identity matters to the protocol. -/
abbrev Image := Nat

/-- Outcome of one call to capture_image_sync: a normal return carrying an
optional image, the distinguished FailedToFindWindowError, or the re-raise
of some other exception with its message. -/
inductive CaptureOutcome where
  | ret (img : Option Image)
  | raiseFailedToFindWindow
  | raiseExc (msg : String)
  deriving Repr, DecidableEq

/-- Marker substring that the Windows worker looks for in native error
messages (capture_worker.py line 104). -/
def windowsMarker : String := "Failed To Find Window"

/-- Behaviour of the native Windows capture layer during one call:
start_free_threaded raises synchronously, or the wait times out with no
callback, or the frame callback delivers an image, or the frame callback
records an error string before setting the completion event. -/
inductive NativeBehavior where
  | startFails (msg : String)
  | timeout
  | frameDelivered (img : Image)
  | callbackError (msg : String)
  deriving Repr, DecidableEq

/-- State of a WindowsCaptureWorkerV2 instance.  lockHeld embeds
the acquisition state of self._capture_lock, control the optional
CaptureControl handle, and the three capture fields mirror
self._capture_event, self._capture_image and self._capture_error.
nativeRunning and startsCount are ghost fields recording whether a native
session is currently armed and how many sessions were ever armed. -/
structure WinCaptureState where
  lockHeld : Bool
  control : Option Unit
  captureEventSet : Bool
  captureImage : Option Image
  captureError : Option String
  nativeRunning : Bool
  startsCount : Nat
  deriving Repr, DecidableEq

namespace WindowsCaptureWorkerV2

/-- Except-branch of capture_image_sync (capture_worker.py lines 100-110):
stop and clear the control handle when present, then either raise
FailedToFindWindowError when the message contains the marker or re-raise. -/
def handle_exception (s : WinCaptureState) (msg : String) :
    CaptureOutcome × WinCaptureState :=
  let s1 := if s.control.isSome then
              { s with control := none, nativeRunning := false }
            else s
  if containsSubstring windowsMarker msg then
    (CaptureOutcome.raiseFailedToFindWindow, { s1 with lockHeld := false })
  else
    (CaptureOutcome.raiseExc msg, { s1 with lockHeld := false })

/-- Shallow embedding of WindowsCaptureWorkerV2.capture_image_sync
(capture_worker.py lines 67-110).  The with-statement on the capture lock
acquires on entry and releases on every exit path; the native layer
behaviour for this call is the explicit argument. -/
def capture_image_sync (s0 : WinCaptureState) (native : NativeBehavior) :
    CaptureOutcome × WinCaptureState :=
  let s := { s0 with lockHeld := true }
  if s.control.isSome then
    -- already capturing: return None without touching any other state
    (CaptureOutcome.ret none, { s with lockHeld := false })
  else
    -- reset state: event.clear, error := None, image := None
    let s := { s with captureEventSet := false, captureError := none,
                      captureImage := none }
    match native with
    | NativeBehavior.startFails msg =>
        -- start_free_threaded raised before self._control was assigned
        handle_exception s msg
    | NativeBehavior.timeout =>
        let s := { s with control := some (), nativeRunning := true,
                          startsCount := s.startsCount + 1 }
        -- wait(timeout) returned False: stop the session, return None
        let s := { s with control := none, nativeRunning := false }
        (CaptureOutcome.ret none, { s with lockHeld := false })
    | NativeBehavior.frameDelivered img =>
        let s := { s with control := some (), nativeRunning := true,
                          startsCount := s.startsCount + 1 }
        -- on_frame_arrived stored the image and set the event
        let s := { s with captureImage := some img, captureEventSet := true }
        -- no capture error: stop the session, return the image
        let s := { s with control := none, nativeRunning := false }
        (CaptureOutcome.ret s.captureImage, { s with lockHeld := false })
    | NativeBehavior.callbackError msg =>
        let s := { s with control := some (), nativeRunning := true,
                          startsCount := s.startsCount + 1 }
        -- on_frame_arrived recorded an error and set the event; the wait
        -- succeeds and the body raises Exception with a wrapped message
        let s := { s with captureError := some msg, captureEventSet := true }
        handle_exception s ("Capture failed: " ++ msg)

end WindowsCaptureWorkerV2

/-- Marker substring that the Mac worker looks for in native error messages
(capture_worker.py line 201); note the different capitalisation. -/
def macMarker : String := "Failed to find window"

/-- State of a MacCaptureWorker instance: the capture lock and the cached
target window id. -/
structure MacCaptureState where
  lockHeld : Bool
  target_window_id : Option Nat
  deriving Repr, DecidableEq

/-- Behaviour of the CoreGraphics window lookup during one call:
an exception (for instance when Quartz cannot be imported) or a returned
optional window number. -/
inductive MacFindOutcome where
  | raises (msg : String)
  | found (id : Option Nat)
  deriving Repr, DecidableEq

/-- Behaviour of the CoreGraphics frame capture during one call: the raw
exception text wrapped by the except clause of _capture_frame, or a
returned optional image. -/
inductive MacFrameOutcome where
  | raises (msg : String)
  | ok (img : Option Image)
  deriving Repr, DecidableEq

/-- Truthiness of the optional window id under the Python test
"if not self._target_window_id": falsy when absent or zero. -/
def pyFalsyId : Option Nat → Bool
  | none => true
  | some n => n == 0

namespace MacCaptureWorker

/-- Python exception values that can reach the except clause of
MacCaptureWorker.capture_image_sync: an instance of
FailedToFindWindowError or a generic exception with a message. -/
inductive PyExc where
  | ftfw
  | exc (msg : String)
  deriving Repr, DecidableEq

/-- Except-branch of MacCaptureWorker.capture_image_sync (capture_worker.py
lines 200-207): re-raise FailedToFindWindowError when the message contains
the Mac marker or the exception is itself a FailedToFindWindowError,
otherwise re-raise the exception. -/
def handle_exception : PyExc → CaptureOutcome
  | PyExc.ftfw => CaptureOutcome.raiseFailedToFindWindow
  | PyExc.exc msg =>
      if containsSubstring macMarker msg then
        CaptureOutcome.raiseFailedToFindWindow
      else
        CaptureOutcome.raiseExc msg

/-- Shallow embedding of MacCaptureWorker.capture_image_sync
(capture_worker.py lines 185-207).  The thread-name prefix that
_capture_frame puts in front of Capture error messages is elided. -/
def capture_image_sync (s0 : MacCaptureState) (find : MacFindOutcome)
    (frame : MacFrameOutcome) : CaptureOutcome × MacCaptureState :=
  let s := { s0 with lockHeld := true }
  match find with
  | MacFindOutcome.raises msg =>
      (handle_exception (PyExc.exc msg), { s with lockHeld := false })
  | MacFindOutcome.found id =>
      let s := { s with target_window_id := id }
      if pyFalsyId id then
        -- raise FailedToFindWindowError(), caught by the except clause
        (handle_exception PyExc.ftfw, { s with lockHeld := false })
      else
        match frame with
        | MacFrameOutcome.raises msg =>
            (handle_exception (PyExc.exc ("Capture error: " ++ msg)),
             { s with lockHeld := false })
        | MacFrameOutcome.ok img =>
            (CaptureOutcome.ret img, { s with lockHeld := false })

end MacCaptureWorker

/-- Observable notifications of a Worker during start_work, in emission
order: the started signal, the invocation of the work body, the error
signal with a message, and the finished signal. -/
inductive WorkerEvent where
  | startedSig
  | bodyRun
  | errorSig (msg : String)
  | finishedSig
  deriving Repr, DecidableEq

namespace Worker

/-- Shallow embedding of Worker.start_work (worker_framework.py lines
58-72).  The work body either completes normally or raises with a message;
start_work emits started, runs the body once, and converts an unhandled
exception into an error signal instead of propagating it.  The returned
list is the ordered trace of observable events. -/
def start_work (body : Except String Unit) : List WorkerEvent :=
  WorkerEvent.startedSig :: WorkerEvent.bodyRun ::
    (match body with
     | Except.ok _ => []
     | Except.error msg => [WorkerEvent.errorSig msg])

end Worker

/-- State of a TimerWorker: whether self.timer is still a live object,
whether its timeout signal is connected to _on_timeout, whether the timer
has been started, and the counter field. -/
structure TimerWorkerState where
  timerPresent : Bool
  timeoutConnected : Bool
  timerStarted : Bool
  counter : Nat
  deriving Repr, DecidableEq

namespace TimerWorker

/-- TimerWorker.__init__ (timer_worker.py lines 15-26): the timer object
exists, nothing is connected or started, and the counter is zero. -/
def init : TimerWorkerState :=
  { timerPresent := true, timeoutConnected := false, timerStarted := false,
    counter := 0 }

/-- TimerWorker._run (timer_worker.py lines 28-35): connect the timeout
signal and start the interval timer. -/
def run (s : TimerWorkerState) : TimerWorkerState :=
  { s with timeoutConnected := true, timerStarted := true }

/-- TimerWorker._on_timeout (timer_worker.py lines 47-49): emit the
timer_tick signal carrying self.counter.  The source never increments
self.counter.  Returns the new state and the emitted value. -/
def on_timeout (s : TimerWorkerState) : TimerWorkerState × Nat :=
  (s, s.counter)

/-- TimerWorker._on_stop_requested (timer_worker.py lines 37-45):
disconnect the timeout signal and release the timer when it is present. -/
def on_stop_requested (s : TimerWorkerState) : TimerWorkerState :=
  if s.timerPresent then
    { s with timeoutConnected := false, timerPresent := false }
  else s

/-- Values emitted by n consecutive timer firings, oldest first. -/
def fireN : TimerWorkerState → Nat → TimerWorkerState × List Nat
  | s, 0 => (s, [])
  | s, n + 1 =>
      let p := on_timeout s
      let q := fireN p.1 n
      (q.1, p.2 :: q.2)

end TimerWorker

/-- Per-worker bookkeeping of a ThreadController record: the cooperative
stop flag of the worker, the signal wiring made by add_worker and
start_worker, and the thread state. -/
structure WorkerRecordState where
  stopRequested : Bool
  errorConnected : Bool
  finishedConnected : Bool
  threadStartedConnected : Bool
  threadRunning : Bool
  quitRequested : Bool
  deriving Repr, DecidableEq

/-- State of a ThreadController: the registry mapping worker names to
records (a key appears at most once, as in a Python dict), a ghost count of
QThread objects ever created, and a ghost count of warnings logged. -/
structure ControllerState where
  workers : List (String × WorkerRecordState)
  threadsCreated : Nat
  warnings : Nat
  deriving Repr, DecidableEq

namespace ThreadController

/-- Dictionary lookup in the registry (first matching key). -/
def lookupWorker (name : String) :
    List (String × WorkerRecordState) → Option WorkerRecordState
  | [] => none
  | (n, r) :: rest => if n = name then some r else lookupWorker name rest

/-- Replace the record stored under a key (first occurrence). -/
def updateWorker (name : String) (r1 : WorkerRecordState) :
    List (String × WorkerRecordState) → List (String × WorkerRecordState)
  | [] => []
  | (n, r) :: rest =>
      if n = name then (n, r1) :: rest
      else (n, r) :: updateWorker name r1 rest

/-- Remove a key from the registry, as dict.pop does. -/
def removeWorker (name : String) :
    List (String × WorkerRecordState) → List (String × WorkerRecordState)
  | [] => []
  | (n, r) :: rest =>
      if n = name then removeWorker name rest
      else (n, r) :: removeWorker name rest

/-- Number of registry entries stored under a key. -/
def countName (name : String) : List (String × WorkerRecordState) → Nat
  | [] => 0
  | (n, _) :: rest => (if n = name then 1 else 0) + countName name rest

/-- Record made by add_worker (worker_framework.py lines 115-128): the
error and finished signals are wired, the thread exists but is neither
started nor wired to start_work, and no stop or quit was requested. -/
def freshRecord : WorkerRecordState :=
  { stopRequested := false, errorConnected := true, finishedConnected := true,
    threadStartedConnected := false, threadRunning := false,
    quitRequested := false }

/-- Grace period in milliseconds that stop_worker passes to thread.wait
(worker_framework.py line 180). -/
def graceMs : Nat := 3000

/-- Outcome of thread.wait with the given bound: whether the thread joined
within the grace period, supplied by the environment. -/
def threadWait (_gracePeriodMs : Nat) (joinOk : Bool) : Bool :=
  joinOk

/-- Shallow embedding of ThreadController.start_worker (worker_framework.py
lines 137-160): a ValueError for an unregistered name, otherwise clear the
stop flag, wire thread.started to start_work and start the thread. -/
def start_worker (name : String) (s : ControllerState) :
    Except String (Bool × ControllerState) :=
  match lookupWorker name s.workers with
  | none => Except.error "No worker named"
  | some r =>
      let r1 := { r with stopRequested := false,
                         threadStartedConnected := true,
                         threadRunning := true }
      Except.ok (true, { s with workers := updateWorker name r1 s.workers })

/-- Shallow embedding of ThreadController.add_worker (worker_framework.py
lines 102-135): return the existing name unchanged when it is already
registered, otherwise create a thread, wire the error and finished signals,
store the record, and optionally auto-start. -/
def add_worker (name : String) (autoStart : Bool) (s : ControllerState) :
    String × ControllerState :=
  if (lookupWorker name s.workers).isSome then
    (name, s)
  else
    let s1 : ControllerState :=
      { s with workers := s.workers ++ [(name, freshRecord)],
               threadsCreated := s.threadsCreated + 1 }
    (name,
      if autoStart then
        match start_worker name s1 with
        | Except.ok p => p.2
        | Except.error _ => s1
      else s1)

/-- Result of a stop_worker call: a normal return carrying the final
controller state, or a TypeError propagated out of a disconnect call that
found nothing connected, carrying the state mutated so far. -/
inductive StopOutcome where
  | returned (s : ControllerState)
  | raisedTypeError (s : ControllerState)
  deriving Repr, DecidableEq

/-- Shallow embedding of ThreadController.stop_worker (worker_framework.py
lines 162-186): a silent no-op for an unregistered name.  Otherwise the
code calls stop_work, then worker.error.disconnect() and
thread.started.disconnect(); a PyQt disconnect with nothing connected
raises TypeError, which stop_worker does not catch, so for a record whose
wiring is not attached the call propagates the TypeError and never
quits, waits, pops or warns.  When both disconnects succeed the thread is
asked to quit and waited on with the grace period; the record is popped on
a successful join, and on a timeout a warning is logged and the record is
kept. -/
def stop_worker (name : String) (joinOk : Bool) (s : ControllerState) :
    StopOutcome :=
  match lookupWorker name s.workers with
  | none => StopOutcome.returned s
  | some r =>
      -- worker_data["worker"].stop_work()
      let r1 := { r with stopRequested := true }
      let s1 := { s with workers := updateWorker name r1 s.workers }
      -- worker_data["worker"].error.disconnect()
      if r1.errorConnected = false then StopOutcome.raisedTypeError s1
      else
        let r2 := { r1 with errorConnected := false }
        let s2 := { s with workers := updateWorker name r2 s.workers }
        -- worker_data["thread"].started.disconnect()
        if r2.threadStartedConnected = false then StopOutcome.raisedTypeError s2
        else
          let r3 := { r2 with threadStartedConnected := false,
                              quitRequested := true }
          -- thread.quit(); success := thread.wait(3000)
          if threadWait graceMs joinOk then
            StopOutcome.returned { s with workers := removeWorker name s.workers }
          else
            StopOutcome.returned { s with workers := updateWorker name r3 s.workers,
                                          warnings := s.warnings + 1 }

end ThreadController

/-- One observable action of an iteration of TextExtractorWorker._run
(text_extractor_worker.py lines 156-174), as a function of the outcome of
capture_image_sync and of the message the builder produces for the
extracted text: continue on a missing image, process the frame (possibly
emitting message_ready) on an image, emit window_closed and leave the loop
on FailedToFindWindowError, and emit the internal-error message and
re-raise on any other exception. -/
inductive IterAction where
  | loopContinue
  | frameProcessed (emitted : Option String)
  | windowClosedEmitted
  | internalErrorRaised (msg : String)
  deriving Repr, DecidableEq

namespace TextExtractorWorker

/-- Shallow embedding of one iteration of TextExtractorWorker._run. -/
def run_iteration (cap : CaptureOutcome) (builtMessage : Option String) :
    IterAction :=
  match cap with
  | CaptureOutcome.ret none => IterAction.loopContinue
  | CaptureOutcome.ret (some _) => IterAction.frameProcessed builtMessage
  | CaptureOutcome.raiseFailedToFindWindow => IterAction.windowClosedEmitted
  | CaptureOutcome.raiseExc msg => IterAction.internalErrorRaised msg

end TextExtractorWorker

/-- State of one text extractor worker object.  All extractor worker
objects the orchestrator ever creates carry the same name
(bazaar_buddy.py line 81), so they are identified here by a generation
number; this record holds the wiring of the two output signals of one such
object and its cooperative stop flag. -/
structure ExtWorker where
  messageReadyConnected : Bool
  windowClosedConnected : Bool
  stopRequested : Bool
  deriving Repr, DecidableEq

/-- A freshly constructed extractor worker object: nothing wired, no stop
requested. -/
def newExtWorker : ExtWorker := ⟨false, false, false⟩

/-- Controller registry record under the extractor name: the generation of
the worker object stored in the record (the one that was moved to the
thread at registration time and that the thread executes), the wiring made
by add_worker and start_worker, and whether the thread is running. -/
structure ExtRecord where
  gen : Nat
  errorConnected : Bool
  threadStartedConnected : Bool
  threadRunning : Bool
  deriving Repr, DecidableEq

/-- State of the BazaarBuddy orchestrator.  text_extractor_worker is the
generation of the object the orchestrator holds in
self.text_extractor_worker, extRegistry the thread-controller record under
the fixed extractor name, workers the per-object signal state, and nextGen
the next unused generation. -/
structure BuddyState where
  tickConnected : Bool
  text_extractor_worker : Option Nat
  nextGen : Nat
  workers : Nat → ExtWorker
  extRegistry : Option ExtRecord
  timerRegistered : Bool
  timerRunning : Bool
  overlayMessage : String

/-- Point update of the worker-object map. -/
def setWorker (ws : Nat → ExtWorker) (g : Nat) (w : ExtWorker) :
    Nat → ExtWorker :=
  fun g' => if g' = g then w else ws g'

/-- Events driving the orchestrator: a timer tick (with the outcomes of the
process probe and of the window-handle probe), and a
FailedToFindWindowError raised inside the running capture worker loop,
which makes that loop emit window_closed and break (with the outcome of
the thread join inside the stop_worker call the signal may trigger). -/
inductive BuddyEvent where
  | tick (procFound winFound : Bool)
  | ftfw (joinOk : Bool)
  deriving Repr, DecidableEq

namespace BazaarBuddy

/-- State as built by BazaarBuddy.__init__ (bazaar_buddy.py lines 13-31):
no worker object yet, nothing connected, nothing registered. -/
def initState : BuddyState :=
  { tickConnected := false, text_extractor_worker := none, nextGen := 0,
    workers := fun _ => newExtWorker, extRegistry := none,
    timerRegistered := false, timerRunning := false, overlayMessage := "" }

/-- Shallow embedding of BazaarBuddy.start_polling (bazaar_buddy.py lines
33-39): set the overlay message, register the one-second timer worker,
connect its tick signal to _attempt_start, and start it. -/
def start_polling (s : BuddyState) : BuddyState :=
  { s with overlayMessage := "Waiting for The Bazaar to start…",
           timerRegistered := true,
           tickConnected := true,
           timerRunning := true }

/-- Shallow embedding of BazaarBuddy._attempt_start (bazaar_buddy.py lines
54-87): return early when the process or its main window is not found;
otherwise disconnect the tick handler, create a fresh extractor worker
object, call add_worker on it, wire its message_ready and window_closed
signals, and call start_worker on the extractor name.  When the registry
is empty, add_worker registers the new object and start_worker starts it.
When a residual record is still registered under the name (after an
earlier stop_worker join timeout), add_worker returns without storing the
new object, so start_worker clears the stop flag of the OLD record worker
and (re)starts its thread, while the newly wired object is never moved to
a thread and never runs. -/
def attempt_start (procFound winFound : Bool) (s : BuddyState) : BuddyState :=
  if !procFound then s
  else if !winFound then s
  else
    let g := s.nextGen
    match s.extRegistry with
    | none =>
        -- fresh path: the record worker is the new object g itself, so
        -- creating g, wiring it and clearing its stop flag collapse into
        -- one record for g
        { s with overlayMessage := "Bazaar process found, watching…",
                 tickConnected := false,
                 nextGen := g + 1,
                 text_extractor_worker := some g,
                 workers := setWorker s.workers g
                   { messageReadyConnected := true,
                     windowClosedConnected := true,
                     stopRequested := false },
                 extRegistry := some { gen := g, errorConnected := true,
                                       threadStartedConnected := true,
                                       threadRunning := true } }
    | some rec =>
        -- residual path: wire the new object g, then clear the stop flag
        -- of the old record worker rec.gen and restart its thread
        let ws1 := setWorker s.workers g
          { newExtWorker with messageReadyConnected := true,
                              windowClosedConnected := true }
        { s with overlayMessage := "Bazaar process found, watching…",
                 tickConnected := false,
                 nextGen := g + 1,
                 text_extractor_worker := some g,
                 workers := setWorker ws1 rec.gen
                   { ws1 rec.gen with stopRequested := false },
                 extRegistry := some { rec with threadStartedConnected := true,
                                                threadRunning := true } }

/-- Lines 46-48 of bazaar_buddy.py: disconnect the held worker's
message_ready and window_closed signals and drop the reference.  A PyQt
disconnect with nothing connected raises TypeError, which the surrounding
except clause catches, abandoning the rest of the block. -/
def disconnect_held (g : Nat) (s : BuddyState) : BuddyState :=
  if (s.workers g).messageReadyConnected = false then s
  else
    let w1 : ExtWorker := { s.workers g with messageReadyConnected := false }
    let s1 := { s with workers := setWorker s.workers g w1 }
    if (s1.workers g).windowClosedConnected = false then s1
    else
      let w2 : ExtWorker := { s1.workers g with windowClosedConnected := false }
      let s2 := { s1 with workers := setWorker s1.workers g w2 }
      { s2 with text_extractor_worker := none }

/-- Shallow embedding of BazaarBuddy.restart_polling (bazaar_buddy.py
lines 41-52).  The try block stops the worker registered under the
extractor name through the thread controller, disconnects the held worker
signals and drops the reference; every exception inside it — the
AttributeError when no worker is held, or a TypeError propagated by a
disconnect with nothing connected (inside stop_worker or on the held
signals) — is caught and logged, abandoning the rest of the block.
Afterwards the tick handler is reconnected.  The stop_worker body is the
one of worker_framework.py lines 162-186, inlined on the extractor
record. -/
def restart_polling (joinOk : Bool) (s : BuddyState) : BuddyState :=
  let afterTry :=
    match s.text_extractor_worker with
    | none => s
    | some gHeld =>
        match s.extRegistry with
        | none => disconnect_held gHeld s
        | some rec =>
            -- stop_worker: stop_work on the record worker
            let w1 : ExtWorker := { s.workers rec.gen with stopRequested := true }
            let s1 := { s with workers := setWorker s.workers rec.gen w1 }
            -- worker.error.disconnect(): TypeError when not connected
            if rec.errorConnected = false then s1
            else
              -- thread.started.disconnect(): TypeError when not connected
              if rec.threadStartedConnected = false then
                { s1 with extRegistry := some { rec with errorConnected := false } }
              else
                -- thread.quit(); thread.wait(3000)
                let rec1 : ExtRecord :=
                  { rec with errorConnected := false, threadStartedConnected := false }
                let s2 :=
                  if ThreadController.threadWait ThreadController.graceMs joinOk then
                    { s1 with extRegistry := none }
                  else
                    { s1 with extRegistry := some rec1 }
                disconnect_held gHeld s2
  { afterTry with tickConnected := true }

/-- Signal dispatch: a tick reaches _attempt_start only while the tick
connection is in place; a FailedToFindWindowError makes the RUNNING
capture worker (the registry record worker) emit window_closed, and the
emission reaches restart_polling only while that worker window_closed
signal is still connected. -/
def step (s : BuddyState) (e : BuddyEvent) : BuddyState :=
  match e with
  | BuddyEvent.tick p w => if s.tickConnected then attempt_start p w s else s
  | BuddyEvent.ftfw j =>
      match s.extRegistry with
      | none => s
      | some rec =>
          if rec.threadRunning then
            if (s.workers rec.gen).windowClosedConnected then
              restart_polling j s
            else s
          else s

/-- Orchestrator state reached from start_polling after a list of events. -/
def buddyRun (evs : List BuddyEvent) : BuddyState :=
  evs.foldl step (start_polling initState)

/-- The orchestrator is in the Searching phase: no extractor worker is held
and ticks drive the search probe. -/
def Searching (s : BuddyState) : Prop :=
  s.text_extractor_worker = none ∧ s.tickConnected = true

/-- The orchestrator is in the Capturing phase: an extractor worker is held
and ticks no longer drive the search probe. -/
def Capturing (s : BuddyState) : Prop :=
  s.text_extractor_worker ≠ none ∧ s.tickConnected = false

/-- Searching-phase shape of a reachable orchestrator state: nothing held,
ticks connected, and any residual registry record (left by a join timeout)
names an old generation whose window_closed wiring has been removed. -/
def SearchShape (s : BuddyState) : Prop :=
  s.text_extractor_worker = none ∧ s.tickConnected = true ∧
  (match s.extRegistry with
   | none => True
   | some rec => rec.gen < s.nextGen ∧
       (s.workers rec.gen).windowClosedConnected = false)

/-- Capturing-phase shape of a reachable orchestrator state: a worker is
held and wired, a record is registered with its thread running, and if the
record worker is still wired then it is the held worker itself with the
full add_worker and start_worker wiring in place (the normal case; after a
join-timeout re-entry the record worker is an older, unwired object). -/
def CaptureShape (s : BuddyState) : Prop :=
  match s.text_extractor_worker, s.extRegistry with
  | some h, some rec =>
      s.tickConnected = false ∧ rec.gen < s.nextGen ∧
      rec.threadRunning = true ∧
      (s.workers h).messageReadyConnected = true ∧
      (s.workers h).windowClosedConnected = true ∧
      ((s.workers rec.gen).windowClosedConnected = true →
        h = rec.gen ∧ rec.errorConnected = true ∧
        rec.threadStartedConnected = true)
  | _, _ => False

/-- Invariant of reachable orchestrator states: the search timer worker
stays registered and running forever, and the state has exactly the
Searching or the Capturing shape. -/
def Inv (s : BuddyState) : Prop :=
  s.timerRegistered = true ∧ s.timerRunning = true ∧
  (SearchShape s ∨ CaptureShape s)

end BazaarBuddy

/-!
Theorems.
-/

theorem charsContain_append (needle pre hay : List Char)
    (h : charsContain needle hay = true) :
    charsContain needle (pre ++ hay) = true := by
  induction pre with
  | nil => simpa using h
  | cons c rest ih =>
    simp only [List.cons_append, charsContain, Bool.or_eq_true]
    exact Or.inr ih

theorem string_toList_append (a b : String) :
    (a ++ b).toList = a.toList ++ b.toList := by
  cases a
  cases b
  rfl

/-- Substring containment survives prefixing, as when Python wraps an error
message in a longer f-string before re-raising it. -/
theorem containsSubstring_append_left (needle pre hay : String)
    (h : containsSubstring needle hay = true) :
    containsSubstring needle (pre ++ hay) = true := by
  unfold containsSubstring at h ⊢
  rw [string_toList_append]
  exact charsContain_append _ _ _ h

/-- Claim C1: on every exit path of capture_image_sync on either capture
worker — image returned, None returned after a timeout, or an exception
(including FailedToFindWindowError) propagating — the capture lock is free
when the call exits, so a subsequent call can acquire it and proceed. -/
theorem capture_image_sync_releases_lock
    (s : WinCaptureState) (native : NativeBehavior)
    (ms : MacCaptureState) (find : MacFindOutcome) (frame : MacFrameOutcome) :
    (WindowsCaptureWorkerV2.capture_image_sync s native).2.lockHeld = false ∧
    (MacCaptureWorker.capture_image_sync ms find frame).2.lockHeld = false := by
  refine ⟨?_, ?_⟩
  · cases native <;>
      simp only [WindowsCaptureWorkerV2.capture_image_sync,
        WindowsCaptureWorkerV2.handle_exception] <;>
      split <;> (try split) <;> (try split) <;> rfl
  · cases find with
    | raises msg =>
        simp only [MacCaptureWorker.capture_image_sync]
    | found id =>
        cases frame <;>
          simp only [MacCaptureWorker.capture_image_sync] <;>
          split <;> rfl

/-- Claim C2: when the native session never signals completion within the
timeout, capture_image_sync returns None (not an error), and the native
session has been stopped and its control handle cleared before the call
returns. -/
theorem capture_image_sync_timeout_returns_none
    (s : WinCaptureState) (h : s.control = none) :
    (WindowsCaptureWorkerV2.capture_image_sync s NativeBehavior.timeout).1 =
      CaptureOutcome.ret none ∧
    (WindowsCaptureWorkerV2.capture_image_sync s
      NativeBehavior.timeout).2.nativeRunning = false ∧
    (WindowsCaptureWorkerV2.capture_image_sync s
      NativeBehavior.timeout).2.control = none := by
  simp [WindowsCaptureWorkerV2.capture_image_sync, h]

/-- Witness for claim C2 at a concrete idle worker state. -/
theorem capture_image_sync_timeout_witness :
    (WindowsCaptureWorkerV2.capture_image_sync
      ⟨false, none, true, some 3, some "old", false, 4⟩
      NativeBehavior.timeout).1 = CaptureOutcome.ret none :=
  (capture_image_sync_timeout_returns_none
    ⟨false, none, true, some 3, some "old", false, 4⟩ rfl).1

/-- Claim C3: any native failure whose message contains the marker
"Failed To Find Window" makes capture_image_sync raise
FailedToFindWindowError, uniformly whether the failure happened
synchronously in start_free_threaded or asynchronously through the error
recorded by the frame callback during the wait (where the code wraps the
recorded error in a Capture failed prefix before matching). -/
theorem capture_image_sync_marker_uniform
    (s : WinCaptureState) (msg : String)
    (h0 : s.control = none)
    (h : containsSubstring windowsMarker msg = true) :
    (WindowsCaptureWorkerV2.capture_image_sync s
      (NativeBehavior.startFails msg)).1 =
      CaptureOutcome.raiseFailedToFindWindow ∧
    (WindowsCaptureWorkerV2.capture_image_sync s
      (NativeBehavior.callbackError msg)).1 =
      CaptureOutcome.raiseFailedToFindWindow := by
  have hw : containsSubstring windowsMarker ("Capture failed: " ++ msg) = true :=
    containsSubstring_append_left _ _ _ h
  constructor
  · simp [WindowsCaptureWorkerV2.capture_image_sync,
      WindowsCaptureWorkerV2.handle_exception, h0, h]
  · simp [WindowsCaptureWorkerV2.capture_image_sync,
      WindowsCaptureWorkerV2.handle_exception, h0, hw]

/-- Witness for claim C3 at a concrete marker-bearing native failure. -/
theorem capture_image_sync_marker_witness :
    (WindowsCaptureWorkerV2.capture_image_sync
      ⟨false, none, false, none, none, false, 0⟩
      (NativeBehavior.callbackError "Error: Failed To Find Window")).1 =
      CaptureOutcome.raiseFailedToFindWindow :=
  (capture_image_sync_marker_uniform
    ⟨false, none, false, none, none, false, 0⟩
    "Error: Failed To Find Window" rfl (by decide)).2

/-- Claim C10: entering capture_image_sync while a previous control handle
is still registered returns None immediately after taking the lock; the
full-state equality shows the completion event, result and error state are
not cleared and no new native session is armed. -/
theorem capture_image_sync_busy_noop
    (s : WinCaptureState) (native : NativeBehavior)
    (h : s.control.isSome = true) :
    WindowsCaptureWorkerV2.capture_image_sync s native =
      (CaptureOutcome.ret none, { s with lockHeld := false }) := by
  simp [WindowsCaptureWorkerV2.capture_image_sync, h]

/-- Witness for claim C10 at a concrete busy worker state. -/
theorem capture_image_sync_busy_witness :
    WindowsCaptureWorkerV2.capture_image_sync
      ⟨true, some (), true, some 3, some "boom", true, 5⟩
      (NativeBehavior.frameDelivered 9) =
      (CaptureOutcome.ret none, ⟨false, some (), true, some 3, some "boom", true, 5⟩) :=
  capture_image_sync_busy_noop
    ⟨true, some (), true, some 3, some "boom", true, 5⟩
    (NativeBehavior.frameDelivered 9) rfl

/-- Claim C5 evaluation: start_work emits started before the body, runs the
body exactly once, and converts an exception into an error signal, but on
normal completion of the body it emits no finished signal at all — the
trace of a successful run is just started then the body. -/
theorem start_work_emits_no_finished :
    Worker.start_work (Except.ok ()) =
      [WorkerEvent.startedSig, WorkerEvent.bodyRun] ∧
    WorkerEvent.finishedSig ∉ Worker.start_work (Except.ok ()) ∧
    Worker.start_work (Except.error "boom") =
      [WorkerEvent.startedSig, WorkerEvent.bodyRun,
       WorkerEvent.errorSig "boom"] := by
  refine ⟨rfl, ?_, rfl⟩
  decide

namespace ThreadController

theorem lookupWorker_append_none (name : String) (r : WorkerRecordState)
    (l : List (String × WorkerRecordState))
    (h : lookupWorker name l = none) :
    lookupWorker name (l ++ [(name, r)]) = some r := by
  induction l with
  | nil => simp [lookupWorker]
  | cons p rest ih =>
    obtain ⟨n, r0⟩ := p
    simp only [List.cons_append, lookupWorker] at h ⊢
    by_cases hn : n = name
    · simp [hn] at h
    · simp only [if_neg hn] at h ⊢
      exact ih h

theorem lookupWorker_update_self (name : String) (r1 : WorkerRecordState)
    (l : List (String × WorkerRecordState)) (r : WorkerRecordState)
    (h : lookupWorker name l = some r) :
    lookupWorker name (updateWorker name r1 l) = some r1 := by
  induction l with
  | nil => simp [lookupWorker] at h
  | cons p rest ih =>
    obtain ⟨n, r0⟩ := p
    by_cases hn : n = name
    · simp [lookupWorker, updateWorker, hn]
    · simp only [lookupWorker, hn, if_false] at h
      simp only [updateWorker, hn, if_false, lookupWorker]
      exact ih h

theorem countName_append_self (name : String) (r : WorkerRecordState)
    (l : List (String × WorkerRecordState)) :
    countName name (l ++ [(name, r)]) = countName name l + 1 := by
  induction l with
  | nil => simp [countName]
  | cons p rest ih =>
    obtain ⟨n, r0⟩ := p
    simp only [List.cons_append, countName, List.append_eq, ih]
    omega

theorem countName_update (name : String) (r1 : WorkerRecordState)
    (l : List (String × WorkerRecordState)) :
    countName name (updateWorker name r1 l) = countName name l := by
  induction l with
  | nil => rfl
  | cons p rest ih =>
    obtain ⟨n, r0⟩ := p
    by_cases hn : n = name <;> simp [updateWorker, countName, hn, ih]

theorem countName_eq_zero_of_lookup_none (name : String)
    (l : List (String × WorkerRecordState))
    (h : lookupWorker name l = none) :
    countName name l = 0 := by
  induction l with
  | nil => rfl
  | cons p rest ih =>
    obtain ⟨n, r0⟩ := p
    by_cases hn : n = name
    · simp [lookupWorker, hn] at h
    · simp only [lookupWorker, hn, if_false] at h
      simp [countName, hn, ih h]

theorem lookupWorker_remove_self (name : String)
    (l : List (String × WorkerRecordState)) :
    lookupWorker name (removeWorker name l) = none := by
  induction l with
  | nil => rfl
  | cons p rest ih =>
    obtain ⟨n, r0⟩ := p
    by_cases hn : n = name <;> simp [removeWorker, lookupWorker, hn, ih]

theorem add_worker_fst (name : String) (a : Bool) (s : ControllerState) :
    (add_worker name a s).1 = name := by
  unfold add_worker
  split <;> rfl

theorem add_worker_noop_of_registered (name : String) (a : Bool)
    (s : ControllerState) (h : (lookupWorker name s.workers).isSome = true) :
    add_worker name a s = (name, s) := by
  simp [add_worker, h]

theorem add_worker_fresh_isSome (name : String) (a : Bool)
    (s : ControllerState) (h : lookupWorker name s.workers = none) :
    (lookupWorker name (add_worker name a s).2.workers).isSome = true := by
  have happ := lookupWorker_append_none name freshRecord s.workers h
  cases a with
  | false =>
    simp [add_worker, h, happ]
  | true =>
    simp only [add_worker, h, Option.isSome_none, Bool.false_eq_true, if_false,
      if_true, start_worker, happ]
    rw [lookupWorker_update_self name _ _ _ happ]
    rfl

theorem add_worker_fresh_count (name : String) (a : Bool)
    (s : ControllerState) (h : lookupWorker name s.workers = none) :
    countName name (add_worker name a s).2.workers = 1 := by
  have happ := lookupWorker_append_none name freshRecord s.workers h
  have h0 := countName_eq_zero_of_lookup_none name s.workers h
  cases a with
  | false =>
    simp [add_worker, h, countName_append_self, h0]
  | true =>
    simp only [add_worker, h, Option.isSome_none, Bool.false_eq_true, if_false,
      if_true, start_worker, happ]
    rw [countName_update, countName_append_self, h0]

/-- Claim C7: add_worker is idempotent by name — when a worker with the
given name is already registered, a second add_worker call with that name
returns the same name, leaves the controller state (hence the single
registry record) unchanged, and creates and starts no new thread. -/
theorem add_worker_idempotent (s : ControllerState) (name : String)
    (a1 a2 : Bool) (h : lookupWorker name s.workers = none) :
    (add_worker name a1 s).1 = name ∧
    (add_worker name a2 (add_worker name a1 s).2).1 = name ∧
    (add_worker name a2 (add_worker name a1 s).2).2 = (add_worker name a1 s).2 ∧
    countName name (add_worker name a2 (add_worker name a1 s).2).2.workers = 1 ∧
    (add_worker name a2 (add_worker name a1 s).2).2.threadsCreated =
      (add_worker name a1 s).2.threadsCreated := by
  have hsome := add_worker_fresh_isSome name a1 s h
  have hnoop := add_worker_noop_of_registered name a2 (add_worker name a1 s).2 hsome
  refine ⟨add_worker_fst name a1 s, ?_, ?_, ?_, ?_⟩
  · rw [hnoop]
  · rw [hnoop]
  · rw [hnoop]
    exact add_worker_fresh_count name a1 s h
  · rw [hnoop]

/-- Witness for claim C7 on an initially empty controller. -/
theorem add_worker_idempotent_witness :
    (add_worker "timer" false (add_worker "timer" false ⟨[], 0, 0⟩).2).2 =
      (add_worker "timer" false ⟨[], 0, 0⟩).2 ∧
    countName "timer"
      (add_worker "timer" false (add_worker "timer" false ⟨[], 0, 0⟩).2).2.workers = 1 :=
  ⟨(add_worker_idempotent ⟨[], 0, 0⟩ "timer" false false rfl).2.2.1,
   (add_worker_idempotent ⟨[], 0, 0⟩ "timer" false false rfl).2.2.2.1⟩

/-- Claim C6 counterexample: stopping a registered worker that was never
started leaves thread.started with nothing connected, so the code raises
TypeError at the disconnect and never quits, waits, warns or removes the
record, even though the join would have succeeded — refuting the
unconditional registered-name contract of the claim. -/
theorem stop_worker_unstarted_raises :
    stop_worker "w" true ⟨[("w", freshRecord)], 1, 0⟩ =
      StopOutcome.raisedTypeError
        ⟨[("w", { freshRecord with stopRequested := true, errorConnected := false })],
         1, 0⟩ ∧
    (lookupWorker "w"
      [("w", { freshRecord with stopRequested := true, errorConnected := false })]).isSome
      = true := by
  refine ⟨rfl, rfl⟩

/-- Claim C6 amended: stop_worker is a silent no-op that does not throw on
an unregistered name; on a registered name whose add_worker and
start_worker wiring is attached (error and thread.started connected — a
started worker not already stop-attempted) it requests cooperative stop,
detaches the wiring, asks the thread to quit with the 3000 ms grace
period, removes the record exactly when the join succeeds, and on a join
timeout logs a warning and leaves the now-unwired record in the registry;
on a registered record whose error or thread.started signal is not
connected the call instead propagates a TypeError from the disconnect and
the record stays in the registry. -/
theorem stop_worker_contract (s : ControllerState) (name : String)
    (joinOk : Bool) :
    graceMs = 3000 ∧
    (lookupWorker name s.workers = none →
      stop_worker name joinOk s = StopOutcome.returned s) ∧
    (∀ r, lookupWorker name s.workers = some r →
      (r.errorConnected = true → r.threadStartedConnected = true →
        (joinOk = true →
          stop_worker name joinOk s =
            StopOutcome.returned
              { s with workers := removeWorker name s.workers } ∧
          lookupWorker name (removeWorker name s.workers) = none) ∧
        (joinOk = false →
          stop_worker name joinOk s =
            StopOutcome.returned
              { s with
                workers := updateWorker name
                  { r with stopRequested := true, errorConnected := false,
                           threadStartedConnected := false,
                           quitRequested := true } s.workers,
                warnings := s.warnings + 1 } ∧
          lookupWorker name (updateWorker name
              { r with stopRequested := true, errorConnected := false,
                       threadStartedConnected := false,
                       quitRequested := true } s.workers) =
            some { r with stopRequested := true, errorConnected := false,
                          threadStartedConnected := false,
                          quitRequested := true })) ∧
      (r.errorConnected = false ∨ r.threadStartedConnected = false →
        ∃ s1, stop_worker name joinOk s = StopOutcome.raisedTypeError s1 ∧
          (lookupWorker name s1.workers).isSome = true)) := by
  refine ⟨rfl, ?_, ?_⟩
  · intro h
    simp [stop_worker, h]
  · intro r hr
    constructor
    · intro herr htsc
      constructor
      · intro hj
        subst hj
        refine ⟨?_, lookupWorker_remove_self name s.workers⟩
        simp [stop_worker, hr, herr, htsc, threadWait]
      · intro hj
        subst hj
        refine ⟨?_, ?_⟩
        · simp [stop_worker, hr, herr, htsc, threadWait]
        · exact lookupWorker_update_self name _ _ _ hr
    · intro hbad
      by_cases herr : r.errorConnected = false
      · refine ⟨{ s with workers := updateWorker name { r with stopRequested := true } s.workers }, ?_, ?_⟩
        · simp [stop_worker, hr, herr]
        · rw [lookupWorker_update_self name _ _ _ hr]
          rfl
      · have herr2 : r.errorConnected = true := by
          revert herr
          cases r.errorConnected <;> simp
        have htsc : r.threadStartedConnected = false := by
          rcases hbad with hbad | hbad
          · exact absurd hbad herr
          · exact hbad
        refine ⟨{ s with workers := updateWorker name { r with stopRequested := true, errorConnected := false } s.workers }, ?_, ?_⟩
        · simp [stop_worker, hr, herr2, htsc]
        · rw [lookupWorker_update_self name _ _ _ hr]
          rfl

/-- Witness for the amended claim C6: a started and wired worker is
stopped and its record removed on a successful join, and a stop of an
unregistered name returns untouched. -/
theorem stop_worker_contract_witness :
    stop_worker "w" true
      ⟨[("w", ⟨false, true, true, true, true, false⟩)], 1, 0⟩ =
      StopOutcome.returned ⟨[], 1, 0⟩ ∧
    stop_worker "absent" false ⟨[], 0, 0⟩ = StopOutcome.returned ⟨[], 0, 0⟩ :=
  ⟨((((stop_worker_contract
        ⟨[("w", ⟨false, true, true, true, true, false⟩)], 1, 0⟩ "w" true).2.2
        ⟨false, true, true, true, true, false⟩ rfl).1 rfl rfl).1 rfl).1,
   (stop_worker_contract ⟨[], 0, 0⟩ "absent" false).2.1 rfl⟩

end ThreadController

namespace BazaarBuddy

theorem step_preserves_inv (s : BuddyState) (e : BuddyEvent) (h : Inv s) :
    Inv (step s e) := by
  obtain ⟨ht1, ht2, hsc⟩ := h
  cases e with
  | tick p w =>
    rcases hsc with ⟨h1, h2, hres⟩ | hcap
    · cases p with
      | false =>
        simp only [step, h2, if_true]
        exact ⟨ht1, ht2, Or.inl ⟨h1, h2, hres⟩⟩
      | true =>
        cases w with
        | false =>
          simp only [step, h2, if_true]
          exact ⟨ht1, ht2, Or.inl ⟨h1, h2, hres⟩⟩
        | true =>
          rcases hreg : s.extRegistry with _ | rec
          · simp only [step, h2, if_true, attempt_start, Bool.not_true,
              Bool.false_eq_true, if_false, hreg, Inv]
            refine ⟨ht1, ht2, Or.inr ?_⟩
            simp [CaptureShape, setWorker]
          · have hres2 : rec.gen < s.nextGen ∧
                (s.workers rec.gen).windowClosedConnected = false := by
              simpa [hreg] using hres
            obtain ⟨hlt, hwcf⟩ := hres2
            have hne : s.nextGen ≠ rec.gen := by omega
            have hne2 : rec.gen ≠ s.nextGen := by omega
            simp only [step, h2, if_true, attempt_start, Bool.not_true,
              Bool.false_eq_true, if_false, hreg, Inv]
            refine ⟨ht1, ht2, Or.inr ?_⟩
            simp [CaptureShape, setWorker, hne, hne2, hwcf]
            omega
    · -- CaptureShape: the tick handler is detached, the tick does nothing
      rcases hh : s.text_extractor_worker with _ | gH
      · simp [CaptureShape, hh] at hcap
      rcases hreg : s.extRegistry with _ | rec
      · simp [CaptureShape, hh, hreg] at hcap
      simp only [CaptureShape, hh, hreg] at hcap
      have h2 : s.tickConnected = false := hcap.1
      simp only [step, h2, Bool.false_eq_true, if_false]
      refine ⟨ht1, ht2, Or.inr ?_⟩
      simp only [CaptureShape, hh, hreg]
      exact hcap
  | ftfw j =>
    rcases hsc with ⟨h1, h2, hres⟩ | hcap
    · rcases hreg : s.extRegistry with _ | rec
      · simp only [step, hreg]
        exact ⟨ht1, ht2, Or.inl ⟨h1, h2, hres⟩⟩
      · have hres2 : rec.gen < s.nextGen ∧
            (s.workers rec.gen).windowClosedConnected = false := by
          simpa [hreg] using hres
        simp only [step, hreg, hres2.2, Bool.false_eq_true, if_false, ite_self]
        exact ⟨ht1, ht2, Or.inl ⟨h1, h2, hres⟩⟩
    · rcases hh : s.text_extractor_worker with _ | gH
      · simp [CaptureShape, hh] at hcap
      rcases hreg : s.extRegistry with _ | rec
      · simp [CaptureShape, hh, hreg] at hcap
      simp only [CaptureShape, hh, hreg] at hcap
      obtain ⟨htick, hlt, hrun, hmr, hwc, hcond⟩ := hcap
      by_cases hwcr : (s.workers rec.gen).windowClosedConnected = true
      · obtain ⟨heq, herr, htsc⟩ := hcond hwcr
        subst heq
        cases j with
        | true =>
          simp [step, hreg, hrun, hwcr, restart_polling, hh, herr, htsc,
            ThreadController.threadWait, disconnect_held, setWorker, hmr, hwc,
            Inv, SearchShape, ht1, ht2]
        | false =>
          simp [step, hreg, hrun, hwcr, restart_polling, hh, herr, htsc,
            ThreadController.threadWait, disconnect_held, setWorker, hmr, hwc,
            Inv, SearchShape, ht1, ht2]
          omega
      · have hwcr2 : (s.workers rec.gen).windowClosedConnected = false := by
          revert hwcr
          cases (s.workers rec.gen).windowClosedConnected <;> simp
        simp only [step, hreg, hrun, if_true, hwcr2, Bool.false_eq_true,
          if_false]
        refine ⟨ht1, ht2, Or.inr ?_⟩
        simp only [CaptureShape, hh, hreg]
        exact ⟨htick, hlt, hrun, hmr, hwc, hcond⟩

theorem inv_foldl (evs : List BuddyEvent) :
    ∀ s, Inv s → Inv (List.foldl step s evs) := by
  induction evs with
  | nil => intro s h; exact h
  | cons e rest ih => intro s h; exact ih _ (step_preserves_inv s e h)

theorem inv_buddyRun (evs : List BuddyEvent) : Inv (buddyRun evs) :=
  inv_foldl evs _ ⟨rfl, rfl, Or.inl ⟨rfl, rfl, trivial⟩⟩

/-- Claim C4 counterexample: drive the orchestrator through a successful
probe, a FailedToFindWindowError whose stop_worker join times out (leaving
the old record registered), and a second successful probe.  The
orchestrator is then Capturing, but the running capture worker is the old
object whose window_closed signal was disconnected, so a further
FailedToFindWindowError changes nothing — the state stays Capturing
instead of becoming Searching within one step. -/
theorem orchestrator_ftfw_lost_stays_capturing :
    Capturing (buddyRun [BuddyEvent.tick true true, BuddyEvent.ftfw false,
      BuddyEvent.tick true true]) ∧
    step (buddyRun [BuddyEvent.tick true true, BuddyEvent.ftfw false,
      BuddyEvent.tick true true]) (BuddyEvent.ftfw true) =
      buddyRun [BuddyEvent.tick true true, BuddyEvent.ftfw false,
        BuddyEvent.tick true true] ∧
    ¬ Searching (step (buddyRun [BuddyEvent.tick true true,
      BuddyEvent.ftfw false, BuddyEvent.tick true true])
      (BuddyEvent.ftfw true)) :=
  ⟨⟨fun hh => Option.noConfusion hh, rfl⟩, rfl,
   fun hs => Option.noConfusion hs.1⟩

/-- Claim C4 amended: every reachable orchestrator state is in exactly one
of the two phases Searching and Capturing; a successful probe while
Searching yields Capturing within one step, with a capture worker record
registered and its thread started and the search tick handler detached;
and a FailedToFindWindowError inside the extractor loop emits
window_closed, and that event while Capturing yields Searching within one
step — stop requested on the record worker, the record removed by the
successful join, the tick handler reconnected — provided the running
record worker is still wired to restart_polling, which holds in every
Capturing state except those re-entered after a stop_worker join timeout,
where the emission is lost and the orchestrator stays Capturing. -/
theorem orchestrator_state_machine (evs : List BuddyEvent) :
    ((Searching (buddyRun evs) ∧ ¬ Capturing (buddyRun evs)) ∨
     (Capturing (buddyRun evs) ∧ ¬ Searching (buddyRun evs))) ∧
    (Searching (buddyRun evs) →
      Capturing (step (buddyRun evs) (BuddyEvent.tick true true)) ∧
      (∃ rec, (step (buddyRun evs) (BuddyEvent.tick true true)).extRegistry =
          some rec ∧ rec.threadRunning = true) ∧
      (step (buddyRun evs) (BuddyEvent.tick true true)).tickConnected = false) ∧
    (TextExtractorWorker.run_iteration CaptureOutcome.raiseFailedToFindWindow
       none = IterAction.windowClosedEmitted ∧
     (∀ rec, Capturing (buddyRun evs) →
       (buddyRun evs).extRegistry = some rec →
       ((buddyRun evs).workers rec.gen).windowClosedConnected = true →
       Searching (step (buddyRun evs) (BuddyEvent.ftfw true)) ∧
       ((step (buddyRun evs) (BuddyEvent.ftfw true)).workers
           rec.gen).stopRequested = true ∧
       (step (buddyRun evs) (BuddyEvent.ftfw true)).extRegistry = none ∧
       (step (buddyRun evs) (BuddyEvent.ftfw true)).tickConnected = true)) := by
  obtain ⟨ht1, ht2, hsc⟩ := inv_buddyRun evs
  refine ⟨?_, ?_, rfl, ?_⟩
  · rcases hsc with ⟨h1, h2, hres⟩ | hcap
    · exact Or.inl ⟨⟨h1, h2⟩, fun hc => hc.1 h1⟩
    · rcases hh : (buddyRun evs).text_extractor_worker with _ | gH
      · simp [CaptureShape, hh] at hcap
      rcases hreg : (buddyRun evs).extRegistry with _ | rec
      · simp [CaptureShape, hh, hreg] at hcap
      simp only [CaptureShape, hh, hreg] at hcap
      exact Or.inr ⟨⟨by simp [hh], hcap.1⟩,
        fun hs => Option.noConfusion (hh.symm.trans hs.1)⟩
  · intro hs
    rcases hreg : (buddyRun evs).extRegistry with _ | rec
    · simp [step, hs.2, attempt_start, hreg, Capturing]
    · simp [step, hs.2, attempt_start, hreg, Capturing]
  · intro rec hc hreg hwcr
    rcases hsc with ⟨h1, _, _⟩ | hcap
    · exact absurd h1 hc.1
    · rcases hh : (buddyRun evs).text_extractor_worker with _ | gH
      · exact absurd hh hc.1
      simp only [CaptureShape, hh, hreg] at hcap
      obtain ⟨htick, hlt, hrun, hmr, hwc, hcond⟩ := hcap
      obtain ⟨heq, herr, htsc⟩ := hcond hwcr
      subst heq
      simp [step, hreg, hrun, hwcr, restart_polling, hh, herr, htsc,
        ThreadController.threadWait, disconnect_held, setWorker, hmr, hwc,
        Searching]

/-- Witness for the amended claim C4 on concrete event traces. -/
theorem orchestrator_state_machine_witness :
    Capturing (step (buddyRun []) (BuddyEvent.tick true true)) ∧
    Searching (step (buddyRun [BuddyEvent.tick true true])
      (BuddyEvent.ftfw true)) :=
  ⟨((orchestrator_state_machine []).2.1 ⟨rfl, rfl⟩).1,
   ((orchestrator_state_machine [BuddyEvent.tick true true]).2.2.2
      ⟨0, true, true, true⟩ ⟨fun hh => Option.noConfusion hh, rfl⟩
      rfl rfl).1⟩

/-- Claim C9 counterexample: after the Searching to Capturing transition
the search timer worker is still registered and still running — the code
only detaches the tick handler and never stops the timer worker, so the
search timer does keep running after the transition. -/
theorem attempt_start_leaves_timer_running :
    Capturing (buddyRun [BuddyEvent.tick true true]) ∧
    (buddyRun [BuddyEvent.tick true true]).timerRunning = true ∧
    (buddyRun [BuddyEvent.tick true true]).timerRegistered = true :=
  ⟨⟨fun hh => Option.noConfusion hh, rfl⟩, rfl, rfl⟩

/-- Claim C9 amended: when the search probe succeeds while Searching and
the controller registry holds no residual extractor record (no earlier
stop_worker join timed out), the transition registers and starts the newly
created capture worker, wires its message_ready output to the downstream
consumer, and detaches the search tick handler, so that later timer ticks
no longer trigger the probe; the timer worker itself keeps running. -/
theorem attempt_start_transition (evs : List BuddyEvent)
    (h : Searching (buddyRun evs))
    (hreg : (buddyRun evs).extRegistry = none) :
    (step (buddyRun evs) (BuddyEvent.tick true true)).extRegistry =
      some { gen := (buddyRun evs).nextGen, errorConnected := true,
             threadStartedConnected := true, threadRunning := true } ∧
    (step (buddyRun evs) (BuddyEvent.tick true true)).text_extractor_worker =
      some (buddyRun evs).nextGen ∧
    ((step (buddyRun evs) (BuddyEvent.tick true true)).workers
        (buddyRun evs).nextGen).messageReadyConnected = true ∧
    ((step (buddyRun evs) (BuddyEvent.tick true true)).workers
        (buddyRun evs).nextGen).windowClosedConnected = true ∧
    (step (buddyRun evs) (BuddyEvent.tick true true)).tickConnected = false ∧
    (∀ p w,
      step (step (buddyRun evs) (BuddyEvent.tick true true))
          (BuddyEvent.tick p w) =
        step (buddyRun evs) (BuddyEvent.tick true true)) ∧
    (step (buddyRun evs) (BuddyEvent.tick true true)).timerRunning = true ∧
    (step (buddyRun evs) (BuddyEvent.tick true true)).timerRegistered = true := by
  obtain ⟨ht1, ht2, _⟩ := inv_buddyRun evs
  simp [step, h.2, attempt_start, hreg, setWorker, ht1, ht2]

/-- Witness for the amended claim C9 on the empty trace. -/
theorem attempt_start_transition_witness :
    (step (buddyRun []) (BuddyEvent.tick true true)).text_extractor_worker =
      some 0 ∧
    (step (buddyRun []) (BuddyEvent.tick true true)).timerRunning = true :=
  ⟨(attempt_start_transition [] ⟨rfl, rfl⟩ rfl).2.1,
   (attempt_start_transition [] ⟨rfl, rfl⟩ rfl).2.2.2.2.2.2.1⟩

end BazaarBuddy

/-- Claim C8 evaluation: a started TimerWorker emits the value 0 on every
firing because _on_timeout never increments the counter, so consecutive
ticks do not carry strictly increasing counts; stopping does disconnect and
release the timer. -/
theorem timer_tick_counter_never_increments :
    (TimerWorker.fireN (TimerWorker.run TimerWorker.init) 3).2 = [0, 0, 0] ∧
    (TimerWorker.on_stop_requested
      (TimerWorker.fireN (TimerWorker.run TimerWorker.init) 3).1).timerPresent
      = false ∧
    (TimerWorker.on_stop_requested
      (TimerWorker.fireN (TimerWorker.run TimerWorker.init) 3).1).timeoutConnected
      = false := by
  refine ⟨rfl, rfl, rfl⟩
